import Mathlib

/-!
Verification development for the BlogNow JS/TS SDK transport layer.

Shallow embedding of the source files (src/utils/errors.ts, src/utils/http.ts,
src/client.ts) of the blognow-js-sdk repository. JavaScript runtime values are
modelled by the inductive type JsValue; machine numbers that the claims touch
are integers (JS timer delays, HTTP statuses, retry counters), so they are
modelled as Int, except the requests-per-second rate which may be fractional
and is modelled as a rational. A NaN-valued timer delay (which arises from
parseInt on a malformed retry-after header) is modelled as the none case of
an Option Int.
-/

/-- A JavaScript runtime value, as far as the SDK inspects one: null,
undefined, booleans, numbers (integral in every code path the claims touch),
strings, plain objects (field lists, later duplicate keys winning as in
JSON.parse), arrays, and thrown error objects. An error value carries its
name, its message, whether it is an instance of Error, and whether it is an
instance of TypeError, which is exactly what the catch clause of makeRequest
discriminates on. -/
inductive JsValue where
  | null : JsValue
  | undefined : JsValue
  | bool (b : Bool) : JsValue
  | num (n : Int) : JsValue
  | str (s : String) : JsValue
  | obj (fields : List (String × JsValue)) : JsValue
  | arr (elems : List JsValue) : JsValue
  | exn (name : String) (message : String) (isError : Bool) (isTypeError : Bool) : JsValue

/-- JavaScript truthiness: null, undefined, false, 0 and the empty string are
falsy; every object (including arrays and errors) is truthy. -/
def JsValue.truthy : JsValue → Bool
  | .null => false
  | .undefined => false
  | .bool b => b
  | .num n => n != 0
  | .str s => s != ""
  | .obj _ => true
  | .arr _ => true
  | .exn _ _ _ _ => true

/-- The JavaScript expression a || b: a when a is truthy, otherwise b. -/
def jsOrV (a b : JsValue) : JsValue :=
  if a.truthy then a else b

/-- Duplicate keys in a decoded JSON object: the last occurrence wins. -/
def lookupLast (fields : List (String × JsValue)) (k : String) : JsValue :=
  match (fields.filter (fun p => p.1 == k)).getLast? with
  | some p => p.2
  | none => .undefined

/-- Optional-chaining field access v?.k: undefined on null/undefined and on
primitives, the field (or undefined) on objects. Never throws. -/
def jsGetOpt : JsValue → String → JsValue
  | .obj fields, k => lookupLast fields k
  | _, _ => .undefined

/-- Plain field access v.k: throws a TypeError on null/undefined (modelled as
the error branch), otherwise as jsGetOpt. -/
def jsGetField : JsValue → String → Except JsValue JsValue
  | .null, _ => .error (.exn "TypeError" "Cannot read properties of null" true true)
  | .undefined, _ => .error (.exn "TypeError" "Cannot read properties of undefined" true true)
  | .obj fields, k => .ok (lookupLast fields k)
  | _, _ => .ok .undefined

/-- A JS default parameter value: applied exactly when the argument is
undefined. -/
def jsDefault (m : JsValue) (d : String) : JsValue :=
  match m with
  | .undefined => .str d
  | v => v

/-- Decidable substring test, modelling String.prototype.includes. -/
def listIsInfixOf [DecidableEq α] : List α → List α → Bool
  | needle, [] => needle.isEmpty
  | needle, a :: rest => needle.isPrefixOf (a :: rest) || listIsInfixOf needle rest

/-- hay.includes(needle) on strings. -/
def strIncludes (needle hay : String) : Bool :=
  listIsInfixOf needle.toList hay.toList

/-- String(v) coercion for the values buildUrl can stringify. -/
def jsToString : JsValue → String
  | .null => "null"
  | .undefined => "undefined"
  | .bool b => if b then "true" else "false"
  | .num n => toString n
  | .str s => s
  | .obj _ => "[object Object]"
  | .arr xs => String.intercalate "," (xs.attach.map (fun x => jsToString x.1))
  | .exn name msg _ _ => name ++ ": " ++ msg
decreasing_by
  simp_wf
  have h := List.sizeOf_lt_of_mem x.2
  omega

/-!
Error taxonomy, from src/utils/errors.ts. The class hierarchy rooted at
BlogNowError is flattened into one structure; each subclass constructor
becomes a function producing it, with the class name recorded in the name
field (the source sets this.name = this.constructor.name) and the JS default
parameter semantics of each constructor preserved via jsDefault.
-/

/-- The BlogNowError data: name (dynamic class name), message, machine code,
optional HTTP status, detail payload, and the retry-after hint that only
RateLimitError sets (undefined on every other class, as in JS where the
field is simply absent). -/
structure BlogNowError where
  name : String
  message : JsValue
  code : String
  status : Option Int
  details : JsValue
  retryAfter : JsValue

/-- APIKeyError from errors.ts: code INVALID_API_KEY, status 401. -/
def APIKeyError (message details : JsValue) : BlogNowError :=
  { name := "APIKeyError", message := jsDefault message "Invalid or missing API key",
    code := "INVALID_API_KEY", status := some 401, details := details, retryAfter := .undefined }

/-- NotFoundError from errors.ts: code NOT_FOUND, status 404. -/
def NotFoundError (message details : JsValue) : BlogNowError :=
  { name := "NotFoundError", message := jsDefault message "Resource not found",
    code := "NOT_FOUND", status := some 404, details := details, retryAfter := .undefined }

/-- ValidationError from errors.ts: code VALIDATION_ERROR, status 422. -/
def ValidationError (message details : JsValue) : BlogNowError :=
  { name := "ValidationError", message := jsDefault message "Request validation failed",
    code := "VALIDATION_ERROR", status := some 422, details := details, retryAfter := .undefined }

/-- RateLimitError from errors.ts: code RATE_LIMIT_EXCEEDED, status 429,
stores the retryAfter argument verbatim. -/
def RateLimitError (message retryAfter details : JsValue) : BlogNowError :=
  { name := "RateLimitError", message := jsDefault message "Rate limit exceeded",
    code := "RATE_LIMIT_EXCEEDED", status := some 429, details := details, retryAfter := retryAfter }

/-- ServerError from errors.ts: code SERVER_ERROR, caller-supplied status. -/
def ServerError (message : JsValue) (status : Int) (details : JsValue) : BlogNowError :=
  { name := "ServerError", message := jsDefault message "Internal server error",
    code := "SERVER_ERROR", status := some status, details := details, retryAfter := .undefined }

/-- NetworkError from errors.ts: code NETWORK_ERROR, no status; the details
argument carries the wrapped underlying cause. -/
def NetworkError (message details : JsValue) : BlogNowError :=
  { name := "NetworkError", message := jsDefault message "Network connectivity issue",
    code := "NETWORK_ERROR", status := none, details := details, retryAfter := .undefined }

/-- TimeoutError from errors.ts: code TIMEOUT, no status. -/
def TimeoutError (message details : JsValue) : BlogNowError :=
  { name := "TimeoutError", message := jsDefault message "Request timeout",
    code := "TIMEOUT", status := none, details := details, retryAfter := .undefined }

/-- ConfigurationError from errors.ts: code CONFIGURATION_ERROR, no status. -/
def ConfigurationError (message : JsValue) : BlogNowError :=
  { name := "ConfigurationError", message := jsDefault message "SDK configuration error",
    code := "CONFIGURATION_ERROR", status := none, details := .undefined, retryAfter := .undefined }

/-- Direct use of the base class, new BlogNowError(message, "HTTP_ERROR",
status, details), from the default branch of createErrorFromResponse. The
base constructor has no default message, so the message is stored verbatim. -/
def blogNowHttpError (message : JsValue) (status : Int) (details : JsValue) : BlogNowError :=
  { name := "BlogNowError", message := message,
    code := "HTTP_ERROR", status := some status, details := details, retryAfter := .undefined }

/-- createErrorFromResponse from errors.ts: the switch on the HTTP status.
For 429 the retry-after hint is read from the details payload (the decoded
error body), details?.retryAfter || details?.["retry-after"], with JS
optional chaining and truthiness. A pure total Lean function: classification
cannot throw. -/
def createErrorFromResponse (status : Int) (message details : JsValue) : BlogNowError :=
  if status = 401 then APIKeyError message details
  else if status = 404 then NotFoundError message details
  else if status = 422 then ValidationError message details
  else if status = 429 then
    RateLimitError message (jsOrV (jsGetOpt details "retryAfter") (jsGetOpt details "retry-after")) details
  else if status = 500 ∨ status = 502 ∨ status = 503 ∨ status = 504 then
    ServerError message status details
  else blogNowHttpError message status details

/-!
JavaScript number parsing for the retry-after header. parseInt with no radix
argument: skip whitespace, optional sign, longest digit prefix; NaN (modelled
as none) when no digits are found. Radix-16 autodetection of 0x prefixes is
not modelled: no claim evaluates the parsed value of such a string, and
whether the result is NaN coincides with the real parseInt on all inputs.
-/

/-- parseInt(s) in base 10; none models NaN. -/
def jsParseInt (s : String) : Option Int :=
  let cs := s.toList.dropWhile (fun c => c == ' ' || c == '\t' || c == '\n' || c == '\r')
  let signAndRest : Int × List Char :=
    match cs with
    | '-' :: t => (-1, t)
    | '+' :: t => (1, t)
    | _ => (1, cs)
  let ds := signAndRest.2.takeWhile Char.isDigit
  if ds.isEmpty then none
  else some (signAndRest.1 * ((ds.foldl (fun a c => a * 10 + (c.toNat - 48)) 0 : Nat) : Int))

/-- The sleep duration parseInt(retryAfter) * 1000 computed in
handleErrorResponse; none models a NaN delay. -/
def retryAfterDelayMs (h : String) : Option Int :=
  (jsParseInt h).map (fun n => n * 1000)

/-- What setTimeout actually waits given a possibly-NaN, possibly-negative
delay: NaN coerces to 0 and negative delays are clamped to 0. -/
def effectiveSetTimeoutDelay : Option Int → Nat
  | none => 0
  | some n => n.toNat

/-- Exponential backoff Math.min(1000 * Math.pow(2, attempt - 1), 10000) used
before a retried attempt, from makeRequest and handleErrorResponse. -/
def backoff (attempt : Nat) : Int :=
  min (1000 * 2 ^ (attempt - 1)) 10000

/-- Claim C1: the error classifier is a pure, total function from
(status, message, detail) to exactly one typed failure kind. 401 maps to the
API-key kind, 404 to not-found, 422 to validation, 429 to rate-limit, each of
500, 502, 503, 504 to a server fault with the status preserved, and every
other status to the generic HTTP kind with the status preserved and the
message verbatim. Totality and absence of exceptions hold because
createErrorFromResponse is a total Lean function. -/
theorem errorClassifier_total_table (status : Int) (message details : JsValue) :
    (status = 401 → (createErrorFromResponse status message details).code = "INVALID_API_KEY") ∧
    (status = 404 → (createErrorFromResponse status message details).code = "NOT_FOUND") ∧
    (status = 422 → (createErrorFromResponse status message details).code = "VALIDATION_ERROR") ∧
    (status = 429 → (createErrorFromResponse status message details).code = "RATE_LIMIT_EXCEEDED") ∧
    ((status = 500 ∨ status = 502 ∨ status = 503 ∨ status = 504) →
      (createErrorFromResponse status message details).code = "SERVER_ERROR" ∧
      (createErrorFromResponse status message details).status = some status) ∧
    (status ≠ 401 → status ≠ 404 → status ≠ 422 → status ≠ 429 →
     status ≠ 500 → status ≠ 502 → status ≠ 503 → status ≠ 504 →
      (createErrorFromResponse status message details).code = "HTTP_ERROR" ∧
      (createErrorFromResponse status message details).status = some status ∧
      (createErrorFromResponse status message details).message = message) := by
  refine ⟨?_, ?_, ?_, ?_, ?_, ?_⟩
  · intro h; subst h
    simp [createErrorFromResponse, APIKeyError]
  · intro h; subst h
    simp [createErrorFromResponse, NotFoundError]
  · intro h; subst h
    simp [createErrorFromResponse, ValidationError]
  · intro h; subst h
    simp [createErrorFromResponse, RateLimitError]
  · intro h
    rcases h with h | h | h | h <;> subst h <;>
      simp [createErrorFromResponse, ServerError]
  · intro h1 h2 h3 h4 h5 h6 h7 h8
    simp [createErrorFromResponse, blogNowHttpError, h1, h2, h3, h4, h5, h6, h7, h8]

/-- Claim C1 witness at the concrete status 418: generic HTTP
kind, status preserved, message verbatim. -/
theorem errorClassifier_total_table_witness :
    (createErrorFromResponse 418 (.str "teapot") .null).code = "HTTP_ERROR" ∧
    (createErrorFromResponse 418 (.str "teapot") .null).status = some 418 ∧
    (createErrorFromResponse 418 (.str "teapot") .null).message = .str "teapot" := by
  have h := errorClassifier_total_table 418 (.str "teapot") .null
  exact h.2.2.2.2.2 (by decide) (by decide) (by decide) (by decide)
    (by decide) (by decide) (by decide) (by decide)

/-!
Transport core, from src/utils/http.ts. The stored client configuration is
the Required<BlogNowConfig> the HttpClient constructor builds; makeRequest is
modelled over a script: the list of outcomes the successive fetch calls of
one logical request produce (a received response, or a rejection with a raw
JS value). The rate-limiter wait at the top of makeRequest is modelled
separately (see the rate limiter section); it only delays, never changes,
the dispatch.
-/

/-- The Required<BlogNowConfig> stored by the HttpClient constructor. -/
structure StoredConfig where
  apiKey : String
  baseUrl : String
  timeout : Int
  retries : Int
  rateLimitPerSecond : ℚ
  debug : Bool
  customHeaders : List (String × String)

/-- One HTTP response as the code observes it: status, statusText, the
content-type header, the retry-after header, the result of response.json()
(none when the body is not valid JSON, so json() rejects), and the result of
response.text(). -/
structure HttpResponse where
  status : Int
  statusText : String
  contentType : Option String
  retryAfterHeader : Option String
  jsonBody : Option JsValue
  textBody : String

/-- What one fetch call does: resolve with a response, or reject with a raw
JS value (abort errors, connectivity TypeErrors, and anything else). -/
inductive AttemptResult where
  | resp (r : HttpResponse) : AttemptResult
  | reject (v : JsValue) : AttemptResult

/-- How a call to makeRequest ends: resolve with a value, or reject with a
thrown value, which is either one of the SDK typed failures or a raw
unclassified JS value. -/
inductive Thrown where
  | typed (e : BlogNowError) : Thrown
  | raw (v : JsValue) : Thrown

/-- Outcome of the dispatched call. -/
inductive Outcome where
  | success (v : JsValue) : Outcome
  | thrown (e : Thrown) : Outcome

/-- Trace of one dispatched logical call: the outcome, how many fetch
attempts were made, and the sleep delays inserted before each retried
attempt, in order (none modelling a NaN delay). -/
structure CallTrace where
  outcome : Outcome
  attempts : Nat
  delays : List (Option Int)

/-- response.ok: status in the 2xx range. -/
def responseOk (r : HttpResponse) : Bool :=
  decide (200 ≤ r.status) && decide (r.status < 300)

/-- contentType && contentType.includes("application/json"). -/
def ctIncludesJson (r : HttpResponse) : Bool :=
  match r.contentType with
  | some s => strIncludes "application/json" s
  | none => false

/-- Truthiness of headers.get("retry-after"): null and the empty string are
falsy. -/
def headerTruthy : Option String → Bool
  | some s => s != ""
  | none => false

/-- error instanceof Error && error.name === "AbortError", the test the
catch clause of makeRequest uses to detect its own timeout abort. -/
def isAbortError : JsValue → Bool
  | .exn name _ isError _ => isError && name == "AbortError"
  | _ => false

/-- error instanceof TypeError && error.message.includes("fetch"), the test
the catch clause uses to detect a connectivity failure. -/
def isFetchTypeError : JsValue → Bool
  | .exn _ msg _ isTypeError => isTypeError && strIncludes "fetch" msg
  | _ => false

/-- The error body handleErrorResponse decodes: response.json() when the
content type is JSON (null when decoding throws), response.text() otherwise. -/
def errorDataOf (r : HttpResponse) : JsValue :=
  if ctIncludesJson r then r.jsonBody.getD .null
  else .str r.textBody

/-- errorData?.message || errorData?.error || response.statusText. -/
def errMessageOf (r : HttpResponse) : JsValue :=
  jsOrV (jsGetOpt (errorDataOf r) "message")
    (jsOrV (jsGetOpt (errorDataOf r) "error") (.str r.statusText))

/-- What handleErrorResponse decides for a non-ok response: retry after a
sleep, or throw a classified error. -/
inductive ErrDecision where
  | retry (delay : Option Int) : ErrDecision
  | fail (e : BlogNowError) : ErrDecision

/-- handleErrorResponse from http.ts, as the retry/fail decision it reaches;
its tail recursion back into makeRequest is performed by the caller in this
embedding. A 429 with a truthy retry-after header and attempts remaining
retries after parseInt(header) * 1000 ms (NaN when unparsable); a status of
500 or above with attempts remaining retries after the capped exponential
backoff; everything else throws createErrorFromResponse on the decoded body. -/
def handleErrorResponse (cfg : StoredConfig) (r : HttpResponse) (attempt : Nat) : ErrDecision :=
  if r.status = 429 ∧ headerTruthy r.retryAfterHeader = true ∧ (attempt : Int) ≤ cfg.retries then
    .retry (retryAfterDelayMs ((r.retryAfterHeader).getD ""))
  else if 500 ≤ r.status ∧ (attempt : Int) ≤ cfg.retries then
    .retry (some (backoff attempt))
  else
    .fail (createErrorFromResponse r.status (errMessageOf r) (errorDataOf r))

/-- The SyntaxError response.json() rejects with on a malformed body. It is
neither abort-named nor a TypeError, so the catch clause rethrows it raw. -/
def jsonDecodeError : JsValue :=
  .exn "SyntaxError" "Unexpected token in JSON" true false

/-- The TypeError thrown when a response body is read twice. After a
retried-and-resolved handleErrorResponse, makeRequest falls through and
re-reads the original non-ok response body, which handleErrorResponse
already consumed. -/
def bodyUsedError : JsValue :=
  .exn "TypeError" "Body is unusable" true true

/-- makeRequest from http.ts over a script of fetch outcomes, consuming one
script entry per attempt, attempt numbering starting at 1 as in the source.
Branches, in source order: a rejected fetch goes to the catch clause
(AbortError becomes a terminal TimeoutError carrying the configured
duration; a fetch TypeError retries with capped exponential backoff while
attempt <= retries and otherwise becomes a NetworkError wrapping the cause;
anything else is rethrown raw). A received non-ok response goes through
handleErrorResponse; on its retry decision the recursion continues, and if
the retried call resolves, the fall-through re-read of the consumed original
body rejects raw (bodyUsedError), while a rejection of the retried call
propagates unchanged (propagated values never satisfy the abort or
fetch-TypeError tests of enclosing catch clauses, since any value satisfying
them is converted at its own frame). A 2xx response parses the body: JSON
content yields data.data || data (rethrowing raw on a malformed body, and on
a null body the field access itself throws), other content yields the raw
text. An exhausted script rejects with a sentinel raw value; claims always
supply a script covering every attempt. -/
def makeRequest (cfg : StoredConfig) : List AttemptResult → Nat → CallTrace
  | [], _ =>
    { outcome := .thrown (.raw (.exn "ScriptExhausted" "no scripted fetch outcome" true false)),
      attempts := 0, delays := [] }
  | .reject v :: rest, attempt =>
    if isAbortError v then
      { outcome := .thrown (.typed (TimeoutError
          (.str ("Request timed out after " ++ toString cfg.timeout ++ "ms")) .undefined)),
        attempts := 1, delays := [] }
    else if isFetchTypeError v then
      if (attempt : Int) ≤ cfg.retries then
        let t := makeRequest cfg rest (attempt + 1)
        { outcome := t.outcome, attempts := t.attempts + 1,
          delays := some (backoff attempt) :: t.delays }
      else
        { outcome := .thrown (.typed (NetworkError (.str "Network request failed") v)),
          attempts := 1, delays := [] }
    else
      { outcome := .thrown (.raw v), attempts := 1, delays := [] }
  | .resp r :: rest, attempt =>
    if responseOk r then
      if ctIncludesJson r then
        match r.jsonBody with
        | none => { outcome := .thrown (.raw jsonDecodeError), attempts := 1, delays := [] }
        | some body =>
          match jsGetField body "data" with
          | .error te => { outcome := .thrown (.raw te), attempts := 1, delays := [] }
          | .ok d => { outcome := .success (jsOrV d body), attempts := 1, delays := [] }
      else
        { outcome := .success (.str r.textBody), attempts := 1, delays := [] }
    else
      match handleErrorResponse cfg r attempt with
      | .retry d =>
        let t := makeRequest cfg rest (attempt + 1)
        { outcome :=
            match t.outcome with
            | .success _ => .thrown (.raw bodyUsedError)
            | o => o,
          attempts := t.attempts + 1, delays := d :: t.delays }
      | .fail e => { outcome := .thrown (.typed e), attempts := 1, delays := [] }

/-- A configuration with the source defaults, used for concrete evaluations. -/
def testConfig : StoredConfig :=
  { apiKey := "test-key", baseUrl := "https://api.blognow.com", timeout := 30000,
    retries := 3, rateLimitPerSecond := 10, debug := false, customHeaders := [] }

/-!
Concrete fixtures used by witnesses and counterexamples.
-/

/-- A 2xx JSON response whose body fails to decode: response.json() rejects. -/
def malformedJsonOk : HttpResponse :=
  { status := 200, statusText := "OK", contentType := some "application/json",
    retryAfterHeader := none, jsonBody := none, textBody := "oops" }

/-- A 2xx JSON response whose envelope has a falsy data field (data: 0). -/
def falsyDataEnvelope : HttpResponse :=
  { status := 200, statusText := "OK", contentType := some "application/json",
    retryAfterHeader := none,
    jsonBody := some (.obj [("data", .num 0), ("status", .num 200)]), textBody := "" }

/-- A 429 response carrying a numeric retry-after header whose JSON body has
no retryAfter or retry-after field. -/
def terminal429 : HttpResponse :=
  { status := 429, statusText := "Too Many Requests", contentType := some "application/json",
    retryAfterHeader := some "7",
    jsonBody := some (.obj [("message", .str "slow down")]), textBody := "" }

/-- A 429 response whose retry-after header does not parse as an integer. -/
def nanRetryAfter429 : HttpResponse :=
  { status := 429, statusText := "Too Many Requests", contentType := some "application/json",
    retryAfterHeader := some "abc",
    jsonBody := some (.obj [("message", .str "slow down")]), textBody := "" }

/-- A plain-text 2xx response. -/
def plainText200 : HttpResponse :=
  { status := 200, statusText := "OK", contentType := some "text/plain",
    retryAfterHeader := none, jsonBody := none, textBody := "hello" }

/-- The abort rejection the timeout timer produces through the controller. -/
def abortRejection : JsValue := .exn "AbortError" "The operation was aborted" true false

/-- The connectivity failure undici rejects fetch with. -/
def fetchFailure : JsValue := .exn "TypeError" "fetch failed" true true

/-- A thrown error that is neither abort-named nor a fetch TypeError. -/
def rangeRejection : JsValue := .exn "RangeError" "Invalid array length" true false

/-- The stored configuration with the retry budget exhausted from the start. -/
def testConfigNoRetry : StoredConfig := { testConfig with retries := 0 }

/-- Claim C2, counterexample: against the claim that no raw unclassified exception ever
propagates out of the transport core: a 2xx JSON response with an
undecodable body makes response.json() reject with a SyntaxError, which the
catch clause of makeRequest rethrows raw (it is neither abort-named nor a
TypeError mentioning fetch), so the caller receives an unclassified raw
error rather than a typed failure. -/
theorem rawExceptionEscapes_counterexample :
    (makeRequest testConfig [.resp malformedJsonOk] 1).outcome = .thrown (.raw jsonDecodeError) := by
  rfl

/-- Claim C2, amended and proved: the propagation policy matching the code — a rejected fetch attempt
is classified only when it is an abort-named Error (surfaced as the typed
timeout failure) or a TypeError whose message includes fetch (retried, then
surfaced as the typed network failure once the budget is exhausted); every
other rejection — and a body-decoding failure on a 2xx JSON response —
propagates to the caller as a raw unclassified value. -/
theorem transportCatch_classification (cfg : StoredConfig) (v : JsValue)
    (rest : List AttemptResult) (attempt : Nat) :
    (isAbortError v = true →
      (makeRequest cfg (.reject v :: rest) attempt).outcome =
        .thrown (.typed (TimeoutError
          (.str ("Request timed out after " ++ toString cfg.timeout ++ "ms")) .undefined))) ∧
    (isAbortError v = false → isFetchTypeError v = true → ¬((attempt : Int) ≤ cfg.retries) →
      (makeRequest cfg (.reject v :: rest) attempt).outcome =
        .thrown (.typed (NetworkError (.str "Network request failed") v))) ∧
    (isAbortError v = false → isFetchTypeError v = false →
      (makeRequest cfg (.reject v :: rest) attempt).outcome = .thrown (.raw v)) ∧
    (∀ r : HttpResponse, responseOk r = true → ctIncludesJson r = true → r.jsonBody = none →
      (makeRequest cfg (.resp r :: rest) attempt).outcome = .thrown (.raw jsonDecodeError)) := by
  refine ⟨?_, ?_, ?_, ?_⟩
  · intro h
    simp [makeRequest, h]
  · intro h1 h2 h3
    simp [makeRequest, h1, h2, h3]
  · intro h1 h2
    simp [makeRequest, h1, h2]
  · intro r hok hct hbody
    simp [makeRequest, hok, hct, hbody]

/-- Claim C2 witness for the amended propagation policy: a RangeError rejection
propagates raw. -/
theorem transportCatch_classification_witness :
    (makeRequest testConfig [.reject rangeRejection] 1).outcome = .thrown (.raw rangeRejection) := by
  have h := transportCatch_classification testConfig rangeRejection [] 1
  exact h.2.2.1 (by rfl) (by rfl)

/-- Claim C5: a timed-out attempt is terminal for the whole call. When the
timeout timer fires first, fetch rejects with the abort error, and the call
immediately fails with the typed timeout failure whose message carries the
configured duration — one attempt consumed at this frame, no sleep, no
further retry regardless of the remaining retry budget (the conclusion does
not depend on attempt or cfg.retries, and the rest of the script is never
consumed). -/
theorem timeout_terminal (cfg : StoredConfig) (v : JsValue) (rest : List AttemptResult)
    (attempt : Nat) (h : isAbortError v = true) :
    makeRequest cfg (.reject v :: rest) attempt =
      { outcome := .thrown (.typed (TimeoutError
          (.str ("Request timed out after " ++ toString cfg.timeout ++ "ms")) .undefined)),
        attempts := 1, delays := [] } := by
  simp [makeRequest, h]

/-- Claim C5 witness: with retry budget left and a retryable
failure still scripted, the abort rejection ends the call at once. -/
theorem timeout_terminal_witness :
    makeRequest testConfig [.reject abortRejection, .reject fetchFailure] 1 =
      { outcome := .thrown (.typed (TimeoutError
          (.str "Request timed out after 30000ms") .undefined)),
        attempts := 1, delays := [] } := by
  have h := timeout_terminal testConfig abortRejection [.reject fetchFailure] 1 (by rfl)
  exact h

/-- Claim C7, counterexample: against the claim that a terminal 429 propagates the
retry-after header into the typed failure: a 429 whose header is "7" but
whose JSON body has no retryAfter field surfaces a RateLimitError whose
retryAfter hint is undefined, because createErrorFromResponse reads the hint
from the decoded body, never from the header. -/
theorem retryAfterHint_counterexample :
    terminal429.retryAfterHeader = some "7" ∧
    (makeRequest testConfigNoRetry [.resp terminal429] 1).outcome =
      .thrown (.typed (RateLimitError (.str "slow down") .undefined
        (.obj [("message", .str "slow down")]))) ∧
    (RateLimitError (.str "slow down") .undefined
        (.obj [("message", .str "slow down")])).retryAfter = .undefined := by
  exact ⟨rfl, rfl, rfl⟩

/-- Claim C7, amended and proved: the hint propagation matching the code — the typed failure surfaced
by a terminal 429 takes its retry-after hint from the decoded error body
(the truthier of its retryAfter and retry-after fields), not from the
response header; with no such body field the hint is undefined even when the
header is present. -/
theorem retryAfterHint_amended (cfg : StoredConfig) (r : HttpResponse)
    (rest : List AttemptResult) (attempt : Nat)
    (h429 : r.status = 429)
    (hterm : ¬(headerTruthy r.retryAfterHeader = true ∧ (attempt : Int) ≤ cfg.retries)) :
    (makeRequest cfg (.resp r :: rest) attempt).outcome =
      .thrown (.typed (RateLimitError (errMessageOf r)
        (jsOrV (jsGetOpt (errorDataOf r) "retryAfter") (jsGetOpt (errorDataOf r) "retry-after"))
        (errorDataOf r))) := by
  have hok : responseOk r = false := by
    simp [responseOk, h429]
  simp [makeRequest, hok, handleErrorResponse, h429, hterm, createErrorFromResponse]

/-- Claim C7 witness for the amended hint propagation at the concrete terminal 429. -/
theorem retryAfterHint_amended_witness :
    (makeRequest testConfigNoRetry [.resp terminal429] 1).outcome =
      .thrown (.typed (RateLimitError (errMessageOf terminal429)
        (jsOrV (jsGetOpt (errorDataOf terminal429) "retryAfter")
          (jsGetOpt (errorDataOf terminal429) "retry-after"))
        (errorDataOf terminal429))) := by
  have h := retryAfterHint_amended testConfigNoRetry terminal429 [] 1 (by rfl) (by decide)
  exact h

/-- Plain field access agrees with optional chaining away from null and
undefined. -/
theorem jsGetField_of_ne (body : JsValue) (k : String)
    (h1 : body ≠ .null) (h2 : body ≠ .undefined) :
    jsGetField body k = .ok (jsGetOpt body k) := by
  cases body <;> simp_all [jsGetField, jsGetOpt]

/-- Claim C8, counterexample: against the claim that a present data field is returned for
any value including falsy ones: a 2xx JSON body with data: 0 makes
data.data || data evaluate to the whole body, not to 0, so the caller
receives the entire envelope instead of the falsy data field. -/
theorem envelopeUnwrap_counterexample :
    (makeRequest testConfig [.resp falsyDataEnvelope] 1).outcome =
      .success (.obj [("data", .num 0), ("status", .num 200)]) ∧
    (makeRequest testConfig [.resp falsyDataEnvelope] 1).outcome ≠ .success (.num 0) := by
  constructor
  · rfl
  · intro h
    have h2 : (JsValue.obj [("data", .num 0), ("status", .num 200)]) = .num 0 := by
      have h1 : (makeRequest testConfig [.resp falsyDataEnvelope] 1).outcome =
          .success (.obj [("data", .num 0), ("status", .num 200)]) := by rfl
      rw [h1] at h
      exact Outcome.success.inj h
    exact JsValue.noConfusion h2

/-- Claim C8, amended and proved: the 2xx handling matching the code — for a JSON 2xx response with a
non-null body, the returned value is the data field when that field is
truthy and the entire decoded body otherwise (so a falsy data field — 0,
empty string, false, null — yields the whole body, and so does an absent
field); a non-JSON 2xx response returns the raw text body; and in both
cases exactly one attempt is consumed with no sleep, so no retry occurs on
a 2xx response. -/
theorem successParse_amended (cfg : StoredConfig) (r : HttpResponse)
    (rest : List AttemptResult) (attempt : Nat) (body : JsValue)
    (hok : responseOk r = true) :
    (ctIncludesJson r = true → r.jsonBody = some body →
      body ≠ .null → body ≠ .undefined →
      makeRequest cfg (.resp r :: rest) attempt =
        { outcome := .success (jsOrV (jsGetOpt body "data") body),
          attempts := 1, delays := [] }) ∧
    (ctIncludesJson r = false →
      makeRequest cfg (.resp r :: rest) attempt =
        { outcome := .success (.str r.textBody), attempts := 1, delays := [] }) := by
  constructor
  · intro hct hbody h1 h2
    simp [makeRequest, hok, hct, hbody, jsGetField_of_ne body "data" h1 h2]
  · intro hct
    simp [makeRequest, hok, hct]

/-- Claim C8 witness: a truthy data field is unwrapped. -/
theorem successParse_amended_witness :
    makeRequest testConfig
      [.resp { status := 200, statusText := "OK", contentType := some "application/json",
               retryAfterHeader := none,
               jsonBody := some (.obj [("data", .str "payload")]), textBody := "" }] 1 =
      { outcome := .success (.str "payload"), attempts := 1, delays := [] } := by
  have h := successParse_amended testConfig
    { status := 200, statusText := "OK", contentType := some "application/json",
      retryAfterHeader := none,
      jsonBody := some (.obj [("data", .str "payload")]), textBody := "" }
    [] 1 (.obj [("data", .str "payload")]) (by rfl)
  have h2 := h.1 (by rfl) (by rfl) (by simp) (by simp)
  exact h2

/-- Claim C10: a 429 whose retry-after header is a non-empty string that
parseInt cannot parse is still retried while attempts remain — the code
checks only header truthiness, so the computed sleep is the NaN delay
parseInt(header) * 1000, which setTimeout treats as an immediate zero-delay
sleep — rather than surfacing a rate-limit failure or rejecting the header. -/
theorem malformedRetryAfter_still_retries (cfg : StoredConfig) (r : HttpResponse)
    (rest : List AttemptResult) (attempt : Nat) (hd : String)
    (h429 : r.status = 429) (hhdr : r.retryAfterHeader = some hd) (hne : hd ≠ "")
    (hnan : jsParseInt hd = none) (hbudget : (attempt : Int) ≤ cfg.retries) :
    (makeRequest cfg (.resp r :: rest) attempt).attempts =
      (makeRequest cfg rest (attempt + 1)).attempts + 1 ∧
    (makeRequest cfg (.resp r :: rest) attempt).delays =
      retryAfterDelayMs hd :: (makeRequest cfg rest (attempt + 1)).delays ∧
    retryAfterDelayMs hd = none ∧
    effectiveSetTimeoutDelay (retryAfterDelayMs hd) = 0 := by
  have hok : responseOk r = false := by
    simp [responseOk, h429]
  have hdelay : retryAfterDelayMs hd = none := by
    simp [retryAfterDelayMs, hnan]
  have hht : headerTruthy (some hd) = true := by
    simp [headerTruthy, hne]
  refine ⟨?_, ?_, hdelay, by simp [hdelay, effectiveSetTimeoutDelay]⟩ <;>
    simp [makeRequest, hok, handleErrorResponse, h429, hht, hbudget, hhdr]

/-- Claim C10 witness at header "abc": the retry
happens with a NaN delay, and the retried attempt resolves the script. -/
theorem malformedRetryAfter_still_retries_witness :
    (makeRequest testConfig [.resp nanRetryAfter429, .resp plainText200] 1).attempts = 2 ∧
    (makeRequest testConfig [.resp nanRetryAfter429, .resp plainText200] 1).delays = [none] ∧
    effectiveSetTimeoutDelay (retryAfterDelayMs "abc") = 0 := by
  have h := malformedRetryAfter_still_retries testConfig nanRetryAfter429
    [.resp plainText200] 1 "abc" (by rfl) (by rfl) (by decide) (by rfl) (by decide)
  refine ⟨?_, ?_, h.2.2.2⟩
  · rw [h.1]
    rfl
  · rw [h.2.1, h.2.2.1]
    rfl

/-- An attempt outcome the retry loop acts on: a 5xx response, or a
connectivity failure (a rejection that the catch clause classifies as a
fetch TypeError and not as its own abort). -/
def isRetryableFailure : AttemptResult → Bool
  | .reject v => !isAbortError v && isFetchTypeError v
  | .resp r => decide (500 ≤ r.status) && decide (r.status < 600)

/-- A generic connectivity failure. -/
def isConnFailure : AttemptResult → Bool
  | .reject v => !isAbortError v && isFetchTypeError v
  | .resp _ => false

/-- Run of makeRequest over a script of retryable failures only, from any
attempt number a with exactly enough script to exhaust the budget: every
scripted failure consumes one attempt, the sleeps are the capped exponential
backoffs for attempts a, a+1, ..., and the call ends in a typed failure. -/
theorem run_retryable (cfg : StoredConfig) :
    ∀ (script : List AttemptResult) (a : Nat),
      script ≠ [] →
      (a : Int) + script.length = cfg.retries + 2 →
      (∀ x ∈ script, isRetryableFailure x = true) →
      (makeRequest cfg script a).attempts = script.length ∧
      (makeRequest cfg script a).delays =
        (List.range (script.length - 1)).map (fun i => some (backoff (a + i))) ∧
      ∃ e, (makeRequest cfg script a).outcome = .thrown (.typed e) := by
  intro script
  induction script with
  | nil => intro a hne _ _; exact absurd rfl hne
  | cons x rest ih =>
    intro a _ hlen hall
    have hx : isRetryableFailure x = true := hall x (by simp)
    have hrest : ∀ y ∈ rest, isRetryableFailure y = true := by
      intro y hy; exact hall y (by simp [hy])
    cases rest with
    | nil =>
      have hnb : ¬((a : Int) ≤ cfg.retries) := by
        simp only [List.length_cons, List.length_nil] at hlen
        push_cast at hlen
        omega
      cases x with
      | reject v =>
        have hcl : isAbortError v = false ∧ isFetchTypeError v = true := by
          simpa [isRetryableFailure] using hx
        refine ⟨?_, ?_, ⟨NetworkError (.str "Network request failed") v, ?_⟩⟩ <;>
          simp [makeRequest, hcl.1, hcl.2, hnb]
      | resp r =>
        have h56 : 500 ≤ r.status ∧ r.status < 600 := by
          simpa [isRetryableFailure] using hx
        have hok : responseOk r = false := by
          simp only [responseOk, Bool.and_eq_false_iff, decide_eq_false_iff_not]
          right; omega
        have hne429 : ¬(r.status = 429) := by omega
        refine ⟨?_, ?_, ⟨createErrorFromResponse r.status (errMessageOf r) (errorDataOf r), ?_⟩⟩ <;>
          simp [makeRequest, hok, handleErrorResponse, hne429, hnb]
    | cons y rest2 =>
      have hb : (a : Int) ≤ cfg.retries := by
        simp only [List.length_cons] at hlen
        push_cast at hlen
        omega
      have hlen2 : ((a + 1 : Nat) : Int) + (y :: rest2).length = cfg.retries + 2 := by
        simp only [List.length_cons] at hlen ⊢
        push_cast at hlen ⊢
        omega
      obtain ⟨iha, ihd, e, iho⟩ := ih (a + 1) (by simp) hlen2 hrest
      have hmap : (List.range ((x :: y :: rest2).length - 1)).map
            (fun i => some (backoff (a + i))) =
          some (backoff a) ::
            (List.range ((y :: rest2).length - 1)).map (fun i => some (backoff (a + 1 + i))) := by
        simp only [List.length_cons, Nat.add_sub_cancel, List.range_succ_eq_map,
          List.map_cons, List.map_map, Nat.add_zero]
        refine congrArg _ ?_
        refine List.map_congr_left ?_
        intro i _
        simp only [Function.comp_apply]
        have harith : a + (i + 1) = a + 1 + i := by omega
        rw [harith]
      cases x with
      | reject v =>
        have hcl : isAbortError v = false ∧ isFetchTypeError v = true := by
          simpa [isRetryableFailure] using hx
        refine ⟨?_, ?_, ⟨e, ?_⟩⟩
        · simp [makeRequest, hcl.1, hcl.2, hb, iha]
        · rw [hmap]
          simp [makeRequest, hcl.1, hcl.2, hb, ihd]
        · simp [makeRequest, hcl.1, hcl.2, hb, iho]
      | resp r =>
        have h56 : 500 ≤ r.status ∧ r.status < 600 := by
          simpa [isRetryableFailure] using hx
        have hok : responseOk r = false := by
          simp only [responseOk, Bool.and_eq_false_iff, decide_eq_false_iff_not]
          right; omega
        have hne429 : ¬(r.status = 429) := by omega
        refine ⟨?_, ?_, ⟨e, ?_⟩⟩
        · simp [makeRequest, hok, handleErrorResponse, hne429, h56.1, hb, iha]
        · rw [hmap]
          simp [makeRequest, hok, handleErrorResponse, hne429, h56.1, hb, ihd]
        · simp [makeRequest, hok, handleErrorResponse, hne429, h56.1, hb, iho]

/-- Run of makeRequest over a script of connectivity failures only: the call
ends in the typed network failure wrapping the cause of the final attempt. -/
theorem run_conn (cfg : StoredConfig) :
    ∀ (script : List AttemptResult) (a : Nat),
      script ≠ [] →
      (a : Int) + script.length = cfg.retries + 2 →
      (∀ x ∈ script, isConnFailure x = true) →
      ∃ v, script.getLast? = some (.reject v) ∧
        (makeRequest cfg script a).outcome =
          .thrown (.typed (NetworkError (.str "Network request failed") v)) := by
  intro script
  induction script with
  | nil => intro a hne _ _; exact absurd rfl hne
  | cons x rest ih =>
    intro a _ hlen hall
    have hx : isConnFailure x = true := hall x (by simp)
    have hrest : ∀ y ∈ rest, isConnFailure y = true := by
      intro y hy; exact hall y (by simp [hy])
    cases x with
    | resp r => simp [isConnFailure] at hx
    | reject v =>
      have hcl : isAbortError v = false ∧ isFetchTypeError v = true := by
        simpa [isConnFailure] using hx
      cases rest with
      | nil =>
        have hnb : ¬((a : Int) ≤ cfg.retries) := by
          simp only [List.length_cons, List.length_nil] at hlen
          push_cast at hlen
          omega
        refine ⟨v, by simp, ?_⟩
        simp [makeRequest, hcl.1, hcl.2, hnb]
      | cons y rest2 =>
        have hb : (a : Int) ≤ cfg.retries := by
          simp only [List.length_cons] at hlen
          push_cast at hlen
          omega
        have hlen2 : ((a + 1 : Nat) : Int) + (y :: rest2).length = cfg.retries + 2 := by
          simp only [List.length_cons] at hlen ⊢
          push_cast at hlen ⊢
          omega
        obtain ⟨w, hlast, hout⟩ := ih (a + 1) (by simp) hlen2 hrest
        refine ⟨w, ?_, ?_⟩
        · rw [List.getLast?_cons_cons]
          exact hlast
        · simp [makeRequest, hcl.1, hcl.2, hb, hout]

/-- Claim C3: with maximum retry count R, a call whose attempts each end
in a 5xx response or a generic connectivity failure makes exactly R + 1
attempts; the sleep before retried attempt k + 1 is the capped exponential
backoff min(1000 * 2^(k-1), 10000) ms (the k-th entry of the delay list is
backoff (1 + k) counting k from zero); and when every attempt is a
connectivity failure, the call fails with the typed network failure wrapping
the cause of the last attempt. -/
theorem retryBudget_backoff_networkError (R : Nat) (cfg : StoredConfig)
    (script : List AttemptResult)
    (hR : cfg.retries = (R : Int))
    (hlen : script.length = R + 1)
    (hfail : ∀ x ∈ script, isRetryableFailure x = true) :
    (makeRequest cfg script 1).attempts = R + 1 ∧
    (makeRequest cfg script 1).delays =
      (List.range R).map (fun k => some (backoff (1 + k))) ∧
    ((∀ x ∈ script, isConnFailure x = true) →
      ∃ v, script.getLast? = some (.reject v) ∧
        (makeRequest cfg script 1).outcome =
          .thrown (.typed (NetworkError (.str "Network request failed") v))) := by
  have hne : script ≠ [] := by
    intro h
    rw [h] at hlen
    simp at hlen
  have harith : ((1 : Nat) : Int) + script.length = cfg.retries + 2 := by
    rw [hR, hlen]
    push_cast
    ring
  have h := run_retryable cfg script 1 hne harith hfail
  refine ⟨by rw [h.1, hlen], ?_, ?_⟩
  · rw [h.2.1, hlen]
    simp
  · intro hconn
    exact run_conn cfg script 1 hne harith hconn

/-- Claim C3 witness: maxRetries = 1 and two consecutive
connectivity failures give exactly 2 attempts, one backoff sleep of 1000 ms,
and a typed network failure wrapping the cause. -/
theorem retryBudget_backoff_networkError_witness :
    (makeRequest { testConfig with retries := 1 }
      [.reject fetchFailure, .reject fetchFailure] 1).attempts = 2 ∧
    (makeRequest { testConfig with retries := 1 }
      [.reject fetchFailure, .reject fetchFailure] 1).delays = [some 1000] ∧
    (makeRequest { testConfig with retries := 1 }
      [.reject fetchFailure, .reject fetchFailure] 1).outcome =
      .thrown (.typed (NetworkError (.str "Network request failed") fetchFailure)) := by
  have h := retryBudget_backoff_networkError 1 { testConfig with retries := 1 }
    [.reject fetchFailure, .reject fetchFailure] (by rfl) (by rfl) (by decide)
  refine ⟨h.1, ?_, ?_⟩
  · rw [h.2.1]
    rfl
  · obtain ⟨v, hv, ho⟩ := h.2.2 (by decide)
    have hv2 : AttemptResult.reject fetchFailure = AttemptResult.reject v :=
      Option.some.inj hv
    have hv3 : fetchFailure = v := AttemptResult.reject.inj hv2
    rw [← hv3] at ho
    exact ho

/-!
Rate limiter, from setupRateLimit / waitForRateLimit in http.ts. The mutable
state is the FIFO array of pending resolve continuations plus the log of
released waiters; waitForRateLimit pushes onto the tail, and each firing of
the interval timer shifts the head and releases it. Waiters are identified
by values of an arbitrary type.
-/

/-- The rate limiter state: the queue of pending waiters in arrival order,
and the waiters released so far in release order. -/
structure RateLimiterState (α : Type) where
  queue : List α
  released : List α

/-- One firing of the setInterval callback: shift the queue and, if a waiter
was pending, release it. -/
def rateLimitTick (s : RateLimiterState α) : RateLimiterState α :=
  match s.queue with
  | [] => s
  | x :: rest => { queue := rest, released := s.released ++ [x] }

/-- An event acting on the limiter: an acquire call enqueuing a waiter, or a
tick of the interval timer. -/
inductive RateLimiterEvent (α : Type) where
  | enqueue (x : α) : RateLimiterEvent α
  | tick : RateLimiterEvent α

/-- The step relation of the limiter. -/
def rateLimitStep (s : RateLimiterState α) : RateLimiterEvent α → RateLimiterState α
  | .enqueue x => { queue := s.queue ++ [x], released := s.released }
  | .tick => rateLimitTick s

/-- Run the limiter from the empty state over a sequence of events. -/
def rateLimitRun (evts : List (RateLimiterEvent α)) : RateLimiterState α :=
  evts.foldl rateLimitStep { queue := [], released := [] }

/-- The waiters enqueued by an event sequence, in arrival order. -/
def arrivals : List (RateLimiterEvent α) → List α
  | [] => []
  | .enqueue x :: rest => x :: arrivals rest
  | .tick :: rest => arrivals rest

/-- The interval of the ticker from setupRateLimit: 1000 / rate ms. -/
def rateLimitTickIntervalMs (rate : ℚ) : ℚ := 1000 / rate

/-- The run invariant, generalized over the starting state: the released log
followed by the pending queue is the starting content followed by the
arrivals, in arrival order. -/
theorem rateLimit_run_from (evts : List (RateLimiterEvent α)) :
    ∀ s : RateLimiterState α,
      (evts.foldl rateLimitStep s).released ++ (evts.foldl rateLimitStep s).queue =
        s.released ++ s.queue ++ arrivals evts := by
  induction evts with
  | nil => intro s; simp [arrivals]
  | cons e rest ih =>
    intro s
    cases e with
    | enqueue x =>
      rw [List.foldl_cons, ih]
      simp [rateLimitStep, arrivals]
    | tick =>
      rw [List.foldl_cons, ih]
      cases hq : s.queue with
      | nil => simp [rateLimitStep, rateLimitTick, hq, arrivals]
      | cons z q => simp [rateLimitStep, rateLimitTick, hq, arrivals]

/-- Claim C4: over the step relation of the rate limiter with tick
interval 1000/rate ms, every run from the empty state satisfies: the
released log followed by the pending queue equals the arrival sequence, so
the released log is the length-N prefix of the arrival order — waiters are
released in strict FIFO arrival order (if i was enqueued before j, i is
released before j); and one tick extends the released log by at most one
waiter, so no two releases occur within the same tick. -/
theorem rateLimiter_fifo_one_per_tick (evts : List (RateLimiterEvent Nat)) :
    (rateLimitRun evts).released ++ (rateLimitRun evts).queue = arrivals evts ∧
    (rateLimitRun evts).released =
      (arrivals evts).take (rateLimitRun evts).released.length ∧
    (∀ s : RateLimiterState Nat,
      (rateLimitTick s).released = s.released ∨
      ∃ x, (rateLimitTick s).released = s.released ++ [x]) ∧
    (∀ rate : ℚ, rateLimitTickIntervalMs rate = 1000 / rate) := by
  have h : (rateLimitRun evts).released ++ (rateLimitRun evts).queue = arrivals evts := by
    have h0 := rateLimit_run_from evts ({ queue := [], released := [] } : RateLimiterState Nat)
    simpa [rateLimitRun] using h0
  refine ⟨h, ?_, ?_, fun _ => rfl⟩
  · rw [← h]
    exact (List.take_left _ _).symm
  · intro s
    cases hq : s.queue with
    | nil => left; simp [rateLimitTick, hq]
    | cons z q => right; exact ⟨z, by simp [rateLimitTick, hq]⟩

/-!
Client construction, from the BlogNowClient constructor in src/client.ts
(validateConfig) followed by the HttpClient constructor in src/utils/http.ts
(defaulting and storage). A missing optional field is none; the typeof
guards of validateConfig are vacuous over these well-typed inputs and are
not modelled. The numeric guards keep the shape of the source conditions
config.field && (field invalid): the truthiness conjunct skips the check
when the supplied value is 0.
-/

/-- The caller-supplied BlogNowConfig, every field optional except that a
missing apiKey is modelled as none. -/
structure BlogNowConfigIn where
  apiKey : Option String
  baseUrl : Option String
  timeout : Option Int
  retries : Option Int
  rateLimitPerSecond : Option ℚ
  debug : Option Bool
  customHeaders : Option (List (String × String))

/-- JS falsiness of an optional string: absent or empty. -/
def strFalsy : Option String → Bool
  | none => true
  | some s => s == ""

/-- String.prototype.trim, modelled executably over the character list
(whitespace stripped from both ends). -/
def strTrim (s : String) : String :=
  String.mk (((s.toList.dropWhile Char.isWhitespace).reverse.dropWhile Char.isWhitespace).reverse)

/-- config.timeout && config.timeout <= 0. -/
def timeoutInvalid : Option Int → Bool
  | some t => decide (t ≠ 0) && decide (t ≤ 0)
  | none => false

/-- config.retries && config.retries < 0. -/
def retriesInvalid : Option Int → Bool
  | some r => decide (r ≠ 0) && decide (r < 0)
  | none => false

/-- config.rateLimitPerSecond && config.rateLimitPerSecond <= 0. -/
def rateInvalid : Option ℚ → Bool
  | some q => decide (q ≠ 0) && decide (q ≤ 0)
  | none => false

/-- o || d for an optional string (the empty string is falsy). -/
def jsOrStr (o : Option String) (d : String) : String :=
  match o with
  | some s => if s == "" then d else s
  | none => d

/-- o || d for an optional number (0 is falsy). -/
def jsOrInt (o : Option Int) (d : Int) : Int :=
  match o with
  | some n => if n = 0 then d else n
  | none => d

/-- o || d for an optional rational (0 is falsy). -/
def jsOrRat (o : Option ℚ) (d : ℚ) : ℚ :=
  match o with
  | some q => if q = 0 then d else q
  | none => d

/-- validateConfig from client.ts: the value checks, in source order. -/
def validateConfig (c : BlogNowConfigIn) : Except BlogNowError Unit :=
  if strFalsy c.apiKey then
    .error (ConfigurationError (.str "API key is required"))
  else if strTrim (c.apiKey.getD "") = "" then
    .error (ConfigurationError (.str "API key must be a non-empty string"))
  else if timeoutInvalid c.timeout then
    .error (ConfigurationError (.str "Timeout must be a positive number"))
  else if retriesInvalid c.retries then
    .error (ConfigurationError (.str "Retries must be a non-negative number"))
  else if rateInvalid c.rateLimitPerSecond then
    .error (ConfigurationError (.str "Rate limit must be a positive number"))
  else .ok ()

/-- The Required<BlogNowConfig> the HttpClient constructor stores, each
optional field resolved with its || default. -/
def storedOf (c : BlogNowConfigIn) : StoredConfig :=
  { apiKey := c.apiKey.getD "",
    baseUrl := jsOrStr c.baseUrl "https://api.blognow.com",
    timeout := jsOrInt c.timeout 30000,
    retries := jsOrInt c.retries 3,
    rateLimitPerSecond := jsOrRat c.rateLimitPerSecond 10,
    debug := c.debug.getD false,
    customHeaders := c.customHeaders.getD [] }

/-- The HttpClient constructor: re-checks the apiKey, then stores the
configuration with || defaults for every optional field. -/
def mkHttpClientConfig (c : BlogNowConfigIn) : Except BlogNowError StoredConfig :=
  if strFalsy c.apiKey then
    .error (ConfigurationError (.str "API key is required"))
  else
    .ok (storedOf c)

/-- Constructing a BlogNowClient: validateConfig, then the HttpClient
constructor. -/
def buildClient (c : BlogNowConfigIn) : Except BlogNowError StoredConfig :=
  match validateConfig c with
  | .error e => .error e
  | .ok _ => mkHttpClientConfig c

/-- A successful validation implies every guard was false. -/
theorem validateConfig_ok (c : BlogNowConfigIn) (u : Unit)
    (h : validateConfig c = .ok u) :
    strFalsy c.apiKey = false ∧ strTrim (c.apiKey.getD "") ≠ "" ∧
    timeoutInvalid c.timeout = false ∧ retriesInvalid c.retries = false ∧
    rateInvalid c.rateLimitPerSecond = false := by
  unfold validateConfig at h
  split_ifs at h with h1 h2 h3 h4 h5
  simp_all

/-- buildClient fails whenever validation cannot succeed. -/
theorem buildClient_isOk_false (c : BlogNowConfigIn)
    (h : ∀ u : Unit, validateConfig c ≠ .ok u) :
    (buildClient c).isOk = false := by
  unfold buildClient
  cases hv : validateConfig c with
  | error e => simp [Except.isOk, Except.toBool]
  | ok u => exact absurd hv (h u)

/-- A configuration supplying apiKey "key" and the explicit values timeout 0
and retries 0. -/
def zeroFieldsConfig : BlogNowConfigIn :=
  { apiKey := some "key", baseUrl := none, timeout := some 0, retries := some 0,
    rateLimitPerSecond := none, debug := none, customHeaders := none }

/-- Claim C6, counterexample: against the construction-validation claim — a supplied timeout
of 0 is non-positive, yet construction succeeds, and the supplied valid
retry count 0 is silently replaced by the default 3 (and the timeout by
30000) — the || defaulting treats any falsy supplied value as absent. -/
theorem configValidation_counterexample :
    (buildClient zeroFieldsConfig).isOk = true ∧
    (buildClient zeroFieldsConfig).map (fun cfg => (cfg.timeout, cfg.retries)) =
      .ok (30000, 3) := by
  exact ⟨rfl, rfl⟩

/-- Claim C6, amended and proved: the construction validation matching the code — construction fails
with a ConfigurationError when the credential is absent, empty or blank, or
when a supplied timeout or rate is negative or a supplied retry count is
negative; a supplied value of exactly 0 for timeout, retries or rate is
treated as absent (JS falsiness) and replaced by its default (30000, 3, 10
respectively); and every supplied nonzero valid value is preserved
unchanged in the stored configuration. -/
theorem configValidation_amended (c : BlogNowConfigIn) :
    ((c.apiKey = none ∨ c.apiKey = some "") →
      buildClient c = .error (ConfigurationError (.str "API key is required"))) ∧
    (∀ s, c.apiKey = some s → strTrim s = "" → (buildClient c).isOk = false) ∧
    (∀ t, c.timeout = some t → t < 0 → (buildClient c).isOk = false) ∧
    (∀ r, c.retries = some r → r < 0 → (buildClient c).isOk = false) ∧
    (∀ q, c.rateLimitPerSecond = some q → q < 0 → (buildClient c).isOk = false) ∧
    (∀ cfg, buildClient c = .ok cfg →
      (∀ s, c.apiKey = some s → cfg.apiKey = s) ∧
      (∀ t, c.timeout = some t → t ≠ 0 → cfg.timeout = t) ∧
      (∀ r, c.retries = some r → r ≠ 0 → cfg.retries = r) ∧
      (∀ q, c.rateLimitPerSecond = some q → q ≠ 0 → cfg.rateLimitPerSecond = q) ∧
      (c.timeout = some 0 → cfg.timeout = 30000) ∧
      (c.retries = some 0 → cfg.retries = 3) ∧
      (c.rateLimitPerSecond = some 0 → cfg.rateLimitPerSecond = 10)) := by
  refine ⟨?_, ?_, ?_, ?_, ?_, ?_⟩
  · intro h
    rcases h with h | h
    · simp [buildClient, validateConfig, strFalsy, h]
    · simp [buildClient, validateConfig, strFalsy, h]
  · intro s hs htrim
    by_cases hse : s = ""
    · subst hse
      simp [buildClient, validateConfig, strFalsy, hs, Except.isOk, Except.toBool]
    · simp [buildClient, validateConfig, strFalsy, hs, hse, htrim, Except.isOk, Except.toBool]
  · intro t ht hneg
    refine buildClient_isOk_false c ?_
    intro u hok
    have hv := (validateConfig_ok c u hok).2.2.1
    rw [ht] at hv
    simp only [timeoutInvalid, Bool.and_eq_false_iff, decide_eq_false_iff_not] at hv
    rcases hv with hv | hv
    · exact hv (by omega)
    · exact hv (by omega)
  · intro r hr hneg
    refine buildClient_isOk_false c ?_
    intro u hok
    have hv := (validateConfig_ok c u hok).2.2.2.1
    rw [hr] at hv
    simp only [retriesInvalid, Bool.and_eq_false_iff, decide_eq_false_iff_not] at hv
    rcases hv with hv | hv
    · exact hv (by omega)
    · exact hv hneg
  · intro q hq hneg
    refine buildClient_isOk_false c ?_
    intro u hok
    have hv := (validateConfig_ok c u hok).2.2.2.2
    rw [hq] at hv
    simp only [rateInvalid, Bool.and_eq_false_iff, decide_eq_false_iff_not] at hv
    rcases hv with hv | hv
    · refine hv ?_
      intro h0
      rw [h0] at hneg
      exact absurd hneg (by norm_num)
    · exact hv (le_of_lt hneg)
  · intro cfg hok
    have hcfg : mkHttpClientConfig c = .ok cfg := by
      unfold buildClient at hok
      cases hv : validateConfig c with
      | error e => rw [hv] at hok; exact absurd hok (by simp)
      | ok u => rw [hv] at hok; exact hok
    have hfields : cfg = storedOf c := by
      unfold mkHttpClientConfig at hcfg
      split_ifs at hcfg with h1
      exact (Except.ok.inj hcfg).symm
    subst hfields
    refine ⟨?_, ?_, ?_, ?_, ?_, ?_, ?_⟩
    · intro s hs; simp [storedOf, hs]
    · intro t ht htne; simp [storedOf, jsOrInt, ht, htne]
    · intro r hr hrne; simp [storedOf, jsOrInt, hr, hrne]
    · intro q hq hqne; simp [storedOf, jsOrRat, hq, hqne]
    · intro ht; simp [storedOf, jsOrInt, ht]
    · intro hr; simp [storedOf, jsOrInt, hr]
    · intro hq; simp [storedOf, jsOrRat, hq]

/-- A configuration with a negative supplied timeout. -/
def negTimeoutConfig : BlogNowConfigIn :=
  { apiKey := some "key", baseUrl := none, timeout := some (-5), retries := none,
    rateLimitPerSecond := none, debug := none, customHeaders := none }

/-- Claim C6 witness for the amended construction validation: a negative timeout
fails construction. -/
theorem configValidation_amended_witness :
    (buildClient negTimeoutConfig).isOk = false := by
  have h := configValidation_amended negTimeoutConfig
  exact h.2.2.1 (-5) rfl (by norm_num)

/-!
URL query building, from buildUrl in http.ts. The forEach over
Object.entries appends, in entry order: nothing for a null/undefined value,
one (key, String(element)) pair per element for an array value, and a single
(key, String(value)) pair otherwise. The model captures the ordered pair
list handed to url.searchParams; URL resolution of path against the base and
percent-encoding are outside it.
-/

/-- The ordered (key, value) pairs buildUrl appends to url.searchParams. -/
def buildSearchParams : List (String × JsValue) → List (String × String)
  | [] => []
  | (k, v) :: rest =>
    match v with
    | .undefined => buildSearchParams rest
    | .null => buildSearchParams rest
    | .arr xs => xs.map (fun x => (k, jsToString x)) ++ buildSearchParams rest
    | v => (k, jsToString v) :: buildSearchParams rest

/-- The serialization the specification describes: each list-valued
parameter becomes repeated key-value pairs in list order, each scalar a
single pair, and null/undefined entries are omitted entirely. -/
def specQuerySerialization (ps : List (String × JsValue)) : List (String × String) :=
  (ps.map (fun p =>
    match p.2 with
    | .undefined => ([] : List (String × String))
    | .null => []
    | .arr xs => xs.map (fun x => (p.1, jsToString x))
    | v => [(p.1, jsToString v)])).flatten

/-- Claim C9: query building appends list-valued parameters as repeated
keys in list order, scalars as single pairs, and omits null/undefined keys
entirely — buildSearchParams agrees with the specified serialization on
every parameter mapping, and on the concrete examples of the specification:
tags ["a", "b"] becomes tags=a then tags=b (not comma-joined), page 1 and
size 10 become single pairs, and null/undefined entries vanish. -/
theorem queryParams_serialization :
    (∀ ps : List (String × JsValue), buildSearchParams ps = specQuerySerialization ps) ∧
    buildSearchParams [("tags", .arr [.str "a", .str "b"])] =
      [("tags", "a"), ("tags", "b")] ∧
    buildSearchParams [("page", .num 1), ("size", .num 10)] =
      [("page", "1"), ("size", "10")] ∧
    buildSearchParams [("q", .str "x"), ("skip", .null), ("miss", .undefined)] =
      [("q", "x")] := by
  refine ⟨?_, ?_, ?_, ?_⟩
  · intro ps
    induction ps with
    | nil => rfl
    | cons p rest ih =>
      obtain ⟨k, v⟩ := p
      cases v <;> simp [buildSearchParams, specQuerySerialization, ih]
  · simp [buildSearchParams, jsToString]
  · simp [buildSearchParams, jsToString]
    exact ⟨rfl, rfl⟩
  · simp [buildSearchParams, jsToString]
